import Mathlib

/-
Verification of the rsearch Python integration example
(src/examples/python/search.py) against its specification.

The file shallowly embeds the function `search_products`.  The external
world (the rsearch translation HTTP service, the psycopg2 PostgreSQL
driver and the store behind it) is modelled by an explicit `Env` record
holding the responses the world would give, and the embedded function
returns both the list of observable side effects (`Event` trace) and the
outcome (`Except PyExc (List Rec)`), mirroring Python exception flow.

Library behaviour that the code relies on is embedded from the libraries
as documented:
* `requests.Response.raise_for_status` raises `requests.exceptions.HTTPError`
  exactly for status codes 400-599 (4xx client errors and 5xx server
  errors); other statuses, including 3xx ones that survive redirect
  resolution (e.g. 300 or 304), do not raise.
* `requests.Response.json` on a body that is not valid JSON raises
  `requests.exceptions.JSONDecodeError`, a subclass of
  `requests.exceptions.RequestException` (requests >= 2.27).
* a Python `dict` subscript on a missing key raises `KeyError`, which is
  neither a `RequestException` nor a `psycopg2.Error`.
* `psycopg2` merges query parameters into the statement client-side; when
  the number of `%s` placeholders and the length of the parameter sequence
  disagree it raises a plain `IndexError` (too few arguments:
  "tuple index out of range") or `TypeError` (too many arguments:
  "not all arguments converted during string formatting"); these are
  plain Python errors, not subclasses of `psycopg2.Error`.
  Errors raised by the store itself (rejected statement, failed connect,
  mid-fetch error) are subclasses of `psycopg2.Error`.
-/

/-- A scalar value as it appears in translation parameters and result rows. -/
inductive Scalar where
  | str (s : String)
  | int (n : Int)
  | null
deriving DecidableEq

/-- A result record: the Python `dict` is modelled as an association list in
insertion order (first occurrence of a key keeps its position, re-insertion
overwrites the value). -/
abbrev Rec := List (String × Scalar)

/-- Observable side effects of one invocation of `search_products`, in order. -/
inductive Event where
  | httpPost (url schema database query : String)
  | pgConnect
  | pgExecute (stmt : String) (params : List Scalar)
  | readDesc
  | fetchAll
  | curClose
  | connClose
deriving DecidableEq

/-- Python exceptions that can escape `search_products`.
`requestException` covers `requests.exceptions.RequestException` and all of
its subclasses (connection errors, `HTTPError` from `raise_for_status`,
`JSONDecodeError`): this is the TranslationFailure domain of the spec.
`dbError` covers `psycopg2.Error`: the ExecutionFailure domain.
`keyErr`, `typeErr` and `indexErr` are plain Python `KeyError`, `TypeError`
and `IndexError`, caught by neither `except` clause of the code. -/
inductive PyExc where
  | requestException (msg : String)
  | dbError (msg : String)
  | keyErr (key : String)
  | typeErr (msg : String)
  | indexErr (msg : String)
deriving DecidableEq

/-- The JSON object of a translation response body, with each of the two
expected fields possibly missing. -/
structure RespFields where
  whereClause : Option String
  parameters : Option (List Scalar)
deriving DecidableEq

/-- A translation HTTP response: its status code and its body
(`json = none` models a body that is not valid JSON). -/
structure TransResp where
  status : Nat
  json : Option RespFields
deriving DecidableEq

/-- The external world of one invocation: what the translation service and
the PostgreSQL store would answer.  `transport = .error m` models an
unreachable endpoint (a `requests` connection error carrying message `m`);
`connectErr` a failing `psycopg2.connect`; `storeReject` a statement
rejected by the store; `fetchErr` a mid-fetch error; `description` the
result-set column names and `rows` the fetched rows. -/
structure Env where
  transport : Except String TransResp
  connectErr : Option String
  storeReject : Option String
  description : List String
  fetchErr : Option String
  rows : List (List Scalar)

/-- The `RSEARCH_URL` default from `os.getenv` at search.py:13. -/
def RSEARCH_URL : String := "http://localhost:8080"

/-- The single outbound HTTP POST of search.py:36-43, with its JSON body
fields `schema`, `database` and `query` (the raw user query, verbatim). -/
def postEvent (q : String) : Event :=
  Event.httpPost (RSEARCH_URL ++ "/api/v1/translate") "products" "postgres" q

/-- Number of `%s` placeholders in a statement, scanning left to right
(the placeholder form psycopg2 uses and rsearch emits). -/
def countPS : List Char → Nat
  | '%' :: 's' :: rest => countPS rest + 1
  | _ :: rest => countPS rest
  | [] => 0

/-- search.py:36-49: obtain the translation response, `raise_for_status`,
parse the body as JSON, and subscript the `whereClause` and `parameters`
fields (the subscripts happen in the `print` calls at lines 47-48, before
any database work).  Returns the two fields or the exception raised. -/
def parseTranslation (env : Env) : Except PyExc (String × List Scalar) :=
  match env.transport with
  | Except.error m => Except.error (PyExc.requestException m)
  | Except.ok resp =>
    if 400 ≤ resp.status ∧ resp.status < 600 then
      Except.error (PyExc.requestException ("HTTP error " ++ toString resp.status))
    else
      match resp.json with
      | none => Except.error (PyExc.requestException "JSONDecodeError")
      | some fields =>
        match fields.whereClause with
        | none => Except.error (PyExc.keyErr "whereClause")
        | some wc =>
          match fields.parameters with
          | none => Except.error (PyExc.keyErr "parameters")
          | some prms => Except.ok (wc, prms)

/-- True for a Python key that already occurs in the dict. -/
def hasKey (k : String) : List (String × Scalar) → Bool
  | [] => false
  | (k2, _) :: rest => k2 == k || hasKey k rest

/-- Overwrite the value of a pair when its key is `k`, keep it otherwise. -/
def replaceVal (k : String) (v : Scalar) (p : String × Scalar) : String × Scalar :=
  if p.1 = k then (k, v) else p

/-- One Python dict insertion: overwrite the value in place if the key is
present, otherwise append the pair. -/
def dictInsert (d : List (String × Scalar)) (k : String) (v : Scalar) :
    List (String × Scalar) :=
  if hasKey k d then d.map (replaceVal k v)
  else d ++ [(k, v)]

/-- Build a Python dict from pairs, inserting left to right. -/
def pyDictAux (d : List (String × Scalar)) : List (String × Scalar) → List (String × Scalar)
  | [] => d
  | p :: rest => pyDictAux (dictInsert d p.1 p.2) rest

/-- The `dict(zip(columns, row))` of search.py:61: a dict built from the pairs
in order. -/
def pyDict (l : List (String × Scalar)) : List (String × Scalar) :=
  pyDictAux [] l

/-- Dict lookup. -/
def dLookup (k : String) : List (String × Scalar) → Option Scalar
  | [] => none
  | (k2, v) :: rest => if k2 = k then some v else dLookup k rest

/-- The value paired with the LAST occurrence of key `k` in a pair list. -/
def lastVal (k : String) : List (String × Scalar) → Option Scalar
  | [] => none
  | (k2, v) :: rest =>
    match lastVal k rest with
    | some w => some w
    | none => if k2 = k then some v else none

/-- The keys of a pair list, in order. -/
def dKeys (d : List (String × Scalar)) : List String := d.map Prod.fst

/-- search.py:53-66: the database stage, entered with the two translation
fields in hand.  `psycopg2.connect`, `cur.execute(sql, params)` with
`sql = "SELECT * FROM products WHERE " ++ whereClause`, read
`cur.description` once, `fetchall`, build the records, close cursor and
connection, return the records.  The parameter merge is client-side: a
placeholder/parameter count mismatch raises a plain `IndexError` or
`TypeError` before the store sees the statement. -/
def execStage (env : Env) (wc : String) (prms : List Scalar) :
    List Event × Except PyExc (List Rec) :=
  match env.connectErr with
  | some m => ([Event.pgConnect], Except.error (PyExc.dbError m))
  | none =>
    let sql := "SELECT * FROM products WHERE " ++ wc
    if countPS sql.data > prms.length then
      ([Event.pgConnect, Event.pgExecute sql prms],
       Except.error (PyExc.indexErr "tuple index out of range"))
    else if countPS sql.data < prms.length then
      ([Event.pgConnect, Event.pgExecute sql prms],
       Except.error (PyExc.typeErr "not all arguments converted during string formatting"))
    else
      match env.storeReject with
      | some m => ([Event.pgConnect, Event.pgExecute sql prms],
                   Except.error (PyExc.dbError m))
      | none =>
        match env.fetchErr with
        | some m => ([Event.pgConnect, Event.pgExecute sql prms,
                      Event.readDesc, Event.fetchAll],
                     Except.error (PyExc.dbError m))
        | none =>
          ([Event.pgConnect, Event.pgExecute sql prms,
            Event.readDesc, Event.fetchAll, Event.curClose, Event.connClose],
           Except.ok (env.rows.map (fun r => pyDict (env.description.zip r))))

/-- The whole `try` block of search.py:34-66. -/
def searchBody (env : Env) (q : String) : List Event × Except PyExc (List Rec) :=
  match parseTranslation env with
  | Except.error e => ([postEvent q], Except.error e)
  | Except.ok (wc, prms) =>
    let st := execStage env wc prms
    (postEvent q :: st.1, st.2)

/-- The two `except` clauses of search.py:68-73: each prints and then
re-raises (`raise`); exceptions of other classes are not caught and
propagate unchanged. -/
def exceptClauses (e : PyExc) : Except PyExc (List Rec) :=
  match e with
  | PyExc.requestException m => Except.error (PyExc.requestException m)
  | PyExc.dbError m => Except.error (PyExc.dbError m)
  | e => Except.error e

/-- search.py:24-73, `search_products`: the try block wrapped by the two
except clauses.  Returns the event trace and the outcome. -/
def search_products (env : Env) (q : String) : List Event × Except PyExc (List Rec) :=
  let body := searchBody env q
  (body.1,
   match body.2 with
   | Except.ok v => Except.ok v
   | Except.error e => exceptClauses e)

/-- Does an event denote the outbound HTTP POST? -/
def isPost : Event → Bool
  | Event.httpPost _ _ _ _ => true
  | _ => false

/-- Does an event denote a read of `cur.description`? -/
def isReadDesc : Event → Bool
  | Event.readDesc => true
  | _ => false

/-- Is an exception in the TranslationFailure domain
(`requests.exceptions.RequestException`)? -/
def isRequestExc : PyExc → Bool
  | PyExc.requestException _ => true
  | _ => false

/-- Is an exception in the ExecutionFailure domain (`psycopg2.Error`)? -/
def isDbError : PyExc → Bool
  | PyExc.dbError _ => true
  | _ => false

/-- A fully successful environment used as a concrete test vector: status 200,
whereClause `x = %s`, one parameter, two result columns, one row. -/
def envOk : Env :=
  ⟨Except.ok ⟨200, some ⟨some "x = %s", some [Scalar.str "a"]⟩⟩,
   none, none, ["a", "b"], none, [[Scalar.int 1, Scalar.int 2]]⟩

example :
    (search_products envOk "q").2
      = Except.ok [[("a", Scalar.int 1), ("b", Scalar.int 2)]] := by
  rfl

theorem exceptClauses_id (e : PyExc) : exceptClauses e = Except.error e := by
  cases e <;> rfl

theorem sp_eq_of_parse_error {env : Env} {e : PyExc} (q : String)
    (h : parseTranslation env = Except.error e) :
    search_products env q = ([postEvent q], Except.error e) := by
  simp [search_products, searchBody, h, exceptClauses_id]

theorem sp_eq_of_parse_ok {env : Env} {wc : String} {prms : List Scalar} (q : String)
    (h : parseTranslation env = Except.ok (wc, prms)) :
    search_products env q
      = (postEvent q :: (execStage env wc prms).1, (execStage env wc prms).2) := by
  have hid : ∀ r : Except PyExc (List Rec),
      (match r with
       | Except.ok v => Except.ok v
       | Except.error e => exceptClauses e) = r := by
    intro r
    cases r with
    | ok v => rfl
    | error e => simp [exceptClauses_id]
  simp [search_products, searchBody, h, hid]

theorem execStage_filter_post (env : Env) (wc : String) (prms : List Scalar) :
    (execStage env wc prms).1.filter isPost = [] := by
  rcases env with ⟨tp, ce, srj, desc, fe, rows⟩
  cases ce <;> cases srj <;> cases fe <;>
    simp [execStage, isPost] <;> split_ifs <;> simp [isPost]

theorem execStage_execute_mem {env : Env} {wc stmt : String}
    {prms ps : List Scalar}
    (h : Event.pgExecute stmt ps ∈ (execStage env wc prms).1) :
    stmt = "SELECT * FROM products WHERE " ++ wc ∧ ps = prms := by
  rcases env with ⟨tp, ce, srj, desc, fe, rows⟩
  cases ce <;> cases srj <;> cases fe <;>
    simp [execStage] at h <;> first
      | (exact h)
      | (revert h; split_ifs <;> intro h <;> simp_all)

theorem execStage_close_iff (env : Env) (wc : String) (prms : List Scalar) :
    (Event.connClose ∈ (execStage env wc prms).1 ↔
       ∃ rs, (execStage env wc prms).2 = Except.ok rs) ∧
    (Event.curClose ∈ (execStage env wc prms).1 ↔
       ∃ rs, (execStage env wc prms).2 = Except.ok rs) := by
  rcases env with ⟨tp, ce, srj, desc, fe, rows⟩
  cases ce <;> cases srj <;> cases fe <;>
    simp [execStage] <;> split_ifs <;> simp

theorem execStage_ok_spec {env : Env} {wc : String} {prms : List Scalar}
    {rs : List Rec}
    (h : (execStage env wc prms).2 = Except.ok rs) :
    rs = env.rows.map (fun r => pyDict (env.description.zip r)) ∧
    (execStage env wc prms).1
      = [Event.pgConnect,
         Event.pgExecute ("SELECT * FROM products WHERE " ++ wc) prms,
         Event.readDesc, Event.fetchAll, Event.curClose, Event.connClose] := by
  rcases env with ⟨tp, ce, srj, desc, fe, rows⟩
  cases ce <;> cases srj <;> cases fe <;>
    simp [execStage] at h ⊢ <;> first
      | (exact ⟨h.symm, rfl⟩)
      | (revert h; split_ifs <;> intro h <;> simp_all)

/-- Claim C1: for every invocation and every translation response, the text of
the executed SQL statement is exactly the fixed template
`SELECT * FROM products WHERE ` followed by the service-provided whereClause,
so it is a function of the whereClause alone; the parameter values are passed
exclusively as the separate bind argument of `cur.execute` and are never
concatenated into the statement text. -/
theorem c1_stmt_from_template_only (env : Env) (q stmt : String) (ps : List Scalar)
    (h : Event.pgExecute stmt ps ∈ (search_products env q).1) :
    ∃ wc prms, parseTranslation env = Except.ok (wc, prms) ∧
      stmt = "SELECT * FROM products WHERE " ++ wc ∧ ps = prms := by
  cases hp : parseTranslation env with
  | error e =>
      rw [sp_eq_of_parse_error q hp] at h
      simp [postEvent] at h
  | ok wp =>
      rcases wp with ⟨wc, prms⟩
      rw [sp_eq_of_parse_ok q hp] at h
      simp [postEvent] at h
      rcases execStage_execute_mem h with ⟨h1, h2⟩
      exact ⟨wc, prms, rfl, h1, h2⟩

/-- Witness for C1 on the concrete successful environment `envOk`. -/
theorem c1_witness :
    Event.pgExecute "SELECT * FROM products WHERE x = %s" [Scalar.str "a"]
        ∈ (search_products envOk "q").1 ∧
    ∃ wc prms, parseTranslation envOk = Except.ok (wc, prms) ∧
      "SELECT * FROM products WHERE x = %s"
        = "SELECT * FROM products WHERE " ++ wc ∧ [Scalar.str "a"] = prms :=
  ⟨by decide, c1_stmt_from_template_only envOk "q" _ _ (by decide)⟩

/-- Counterexample to claim C2: when the store rejects the statement (the
unknown-column scenario of the spec), `search_products` raises the database
error, but the opened connection is NOT closed before the error surfaces:
there is no `conn.close()` (nor `cur.close()`) on this path, because the code
has no try/finally around the psycopg2 work. -/
def envRejected : Env :=
  ⟨Except.ok ⟨200, some ⟨some "x = %s", some [Scalar.str "a"]⟩⟩,
   none, some "unknown column", ["a"], none, []⟩

/-- Counterexample theorem for C2: a store-rejected statement surfaces as a
database error while `pgConnect` is in the trace and `connClose`/`curClose`
are not: the connection is not released on this error path. -/
theorem c2_counterexample :
    (search_products envRejected "q").2 = Except.error (PyExc.dbError "unknown column") ∧
    Event.pgConnect ∈ (search_products envRejected "q").1 ∧
    Event.connClose ∉ (search_products envRejected "q").1 ∧
    Event.curClose ∉ (search_products envRejected "q").1 :=
  ⟨rfl, by decide, by decide, by decide⟩

/-- Claim C2, amended: the connection and cursor are closed exactly on the
successful path; on every path that raises after the connection is opened
(execution error, mismatch, mid-fetch error) the connection is not closed
before the error surfaces. -/
theorem c2_close_iff_success (env : Env) (q : String) :
    (Event.connClose ∈ (search_products env q).1 ↔
       ∃ rs, (search_products env q).2 = Except.ok rs) ∧
    (Event.curClose ∈ (search_products env q).1 ↔
       ∃ rs, (search_products env q).2 = Except.ok rs) := by
  cases hp : parseTranslation env with
  | error e =>
      rw [sp_eq_of_parse_error q hp]
      simp [postEvent]
  | ok wp =>
      rcases wp with ⟨wc, prms⟩
      rw [sp_eq_of_parse_ok q hp]
      have h := execStage_close_iff env wc prms
      simp [postEvent]
      exact h

/-- Claim C9: every invocation performs exactly one outbound network call
(the events of the trace that are HTTP posts are exactly one), and that call
posts to the translate endpoint a body holding the schema name `products`,
the database dialect `postgres`, and the raw user query string verbatim. -/
theorem c9_single_post_verbatim (env : Env) (q : String) :
    (search_products env q).1.filter isPost
      = [Event.httpPost (RSEARCH_URL ++ "/api/v1/translate") "products" "postgres" q] := by
  cases hp : parseTranslation env with
  | error e =>
      rw [sp_eq_of_parse_error q hp]
      simp [postEvent, isPost]
  | ok wp =>
      rcases wp with ⟨wc, prms⟩
      rw [sp_eq_of_parse_ok q hp]
      simp [postEvent, isPost, execStage_filter_post]

/-- A response whose status is in the success range but whose body is missing
the whereClause field. -/
def envNoWc : Env :=
  ⟨Except.ok ⟨200, some ⟨none, some []⟩⟩, none, none, [], none, []⟩

/-- A response whose status is in the success range, with a whereClause but
no parameters field. -/
def envNoParams : Env :=
  ⟨Except.ok ⟨200, some ⟨some "x = %s", none⟩⟩, none, none, [], none, []⟩

/-- Counterexample to claim C3: a 200 response whose body parses as JSON but
is missing the `whereClause` field makes the pipeline fail with a plain
`KeyError` (raised by the subscript in the print at search.py:47), which is
caught by neither except clause: it is an untagged error, not a
TranslationFailure (`requests.exceptions.RequestException`). -/
theorem c3_counterexample :
    (search_products envNoWc "q").2 = Except.error (PyExc.keyErr "whereClause") ∧
    isRequestExc (PyExc.keyErr "whereClause") = false ∧
    isDbError (PyExc.keyErr "whereClause") = false :=
  ⟨rfl, rfl, rfl⟩

/-- Claim C3, amended: a success-status response whose body is not valid JSON
fails in the TranslationFailure domain (`JSONDecodeError` is a
`RequestException`); but a success-status JSON body missing the whereClause
field raises an untagged `KeyError "whereClause"`, and one missing the
parameters field an untagged `KeyError "parameters"`, neither of them a
TranslationFailure. -/
theorem c3_amended (env : Env) (q wc : String) (resp : TransResp) (fields : RespFields)
    (hok : env.transport = Except.ok resp)
    (hst : ¬(400 ≤ resp.status ∧ resp.status < 600)) :
    (resp.json = none →
       (search_products env q).2
         = Except.error (PyExc.requestException "JSONDecodeError")) ∧
    (resp.json = some fields → fields.whereClause = none →
       (search_products env q).2 = Except.error (PyExc.keyErr "whereClause")) ∧
    (resp.json = some fields → fields.whereClause = some wc →
       fields.parameters = none →
       (search_products env q).2 = Except.error (PyExc.keyErr "parameters")) := by
  refine ⟨?_, ?_, ?_⟩
  · intro hj
    have hp : parseTranslation env
        = Except.error (PyExc.requestException "JSONDecodeError") := by
      simp [parseTranslation, hok, hst, hj]
    rw [sp_eq_of_parse_error q hp]
  · intro hj hwc
    have hp : parseTranslation env = Except.error (PyExc.keyErr "whereClause") := by
      simp [parseTranslation, hok, hst, hj, hwc]
    rw [sp_eq_of_parse_error q hp]
  · intro hj hwc hpar
    have hp : parseTranslation env = Except.error (PyExc.keyErr "parameters") := by
      simp [parseTranslation, hok, hst, hj, hwc, hpar]
    rw [sp_eq_of_parse_error q hp]

/-- Witness for the amended C3 at the concrete environment `envNoParams`. -/
theorem c3_witness :
    envNoParams.transport = Except.ok ⟨200, some ⟨some "x = %s", none⟩⟩ ∧
    ¬(400 ≤ (200 : Nat) ∧ (200 : Nat) < 600) ∧
    (search_products envNoParams "q").2 = Except.error (PyExc.keyErr "parameters") :=
  ⟨rfl, by decide,
   (c3_amended envNoParams "q" "x = %s" ⟨200, some ⟨some "x = %s", none⟩⟩
      ⟨some "x = %s", none⟩ rfl (by decide)).2.2 rfl rfl rfl⟩

/-- A translation response with a non-2xx status (300 Multiple Choices, which
`requests` does not auto-follow and `raise_for_status` does not raise on)
carrying a well-formed body. -/
def env300 : Env :=
  ⟨Except.ok ⟨300, some ⟨some "x = %s", some [Scalar.str "a"]⟩⟩,
   none, none, ["a"], none, []⟩

/-- Counterexample to claim C4: a non-2xx status (300) with a well-formed body
does NOT raise a TranslationFailure — `raise_for_status` only raises for
status 400-599 — and the execution stage IS entered: a store connection is
opened, the statement is executed, and the invocation completes normally. -/
theorem c4_counterexample :
    env300.transport
      = Except.ok ⟨300, some ⟨some "x = %s", some [Scalar.str "a"]⟩⟩ ∧
    Event.pgConnect ∈ (search_products env300 "q").1 ∧
    Event.pgExecute "SELECT * FROM products WHERE x = %s" [Scalar.str "a"]
        ∈ (search_products env300 "q").1 ∧
    (search_products env300 "q").2 = Except.ok [] :=
  ⟨rfl, by decide, by decide, rfl⟩

/-- Claim C4, amended: when the translation endpoint is unreachable, or
returns a 4xx/5xx status (the statuses `raise_for_status` raises on), the
pipeline fails in the TranslationFailure domain and the execution stage is
never entered: no store connection is opened and no SQL statement is
executed.  (Other non-2xx statuses, e.g. 300, are not raised on.) -/
theorem c4_amended (env : Env) (q m s : String) (resp : TransResp) (ps : List Scalar) :
    (env.transport = Except.error m →
       (search_products env q).2 = Except.error (PyExc.requestException m) ∧
       Event.pgConnect ∉ (search_products env q).1 ∧
       Event.pgExecute s ps ∉ (search_products env q).1) ∧
    (env.transport = Except.ok resp → 400 ≤ resp.status → resp.status < 600 →
       (search_products env q).2
         = Except.error (PyExc.requestException ("HTTP error " ++ toString resp.status)) ∧
       Event.pgConnect ∉ (search_products env q).1 ∧
       Event.pgExecute s ps ∉ (search_products env q).1) := by
  constructor
  · intro h
    have hp : parseTranslation env = Except.error (PyExc.requestException m) := by
      simp [parseTranslation, h]
    rw [sp_eq_of_parse_error q hp]
    refine ⟨rfl, ?_, ?_⟩ <;> simp [postEvent]
  · intro h h4 h6
    have hp : parseTranslation env
        = Except.error (PyExc.requestException ("HTTP error " ++ toString resp.status)) := by
      simp [parseTranslation, h, h4, h6]
    rw [sp_eq_of_parse_error q hp]
    refine ⟨rfl, ?_, ?_⟩ <;> simp [postEvent]

/-- A translation endpoint answering HTTP 500. -/
def env500 : Env := ⟨Except.ok ⟨500, none⟩, none, none, [], none, []⟩

/-- Witness for the amended C4 at the concrete HTTP 500 environment. -/
theorem c4_witness :
    env500.transport = Except.ok ⟨500, none⟩ ∧
    400 ≤ (500 : Nat) ∧ (500 : Nat) < 600 ∧
    ((search_products env500 "q").2
       = Except.error (PyExc.requestException ("HTTP error " ++ toString (500 : Nat))) ∧
     Event.pgConnect ∉ (search_products env500 "q").1 ∧
     Event.pgExecute "s" [] ∉ (search_products env500 "q").1) :=
  ⟨rfl, by decide, by decide,
   (c4_amended env500 "q" "m" "s" ⟨500, none⟩ []).2 rfl (by decide) (by decide)⟩

/-- A well-formed translation whose whereClause has one placeholder but whose
parameter list is empty: a placeholder/parameter arity mismatch. -/
def envMismatch : Env :=
  ⟨Except.ok ⟨200, some ⟨some "x = %s", some []⟩⟩, none, none, [], none, []⟩

/-- Counterexample to claim C5: on a placeholder/parameter count mismatch the
invocation does raise (it never proceeds), but the error is a plain
`IndexError` from the client-side parameter merge of psycopg2, NOT an
ExecutionFailure (`psycopg2.Error`): the except clause for database errors
does not catch it and it surfaces untagged. -/
theorem c5_counterexample :
    (search_products envMismatch "q").2
      = Except.error (PyExc.indexErr "tuple index out of range") ∧
    isDbError (PyExc.indexErr "tuple index out of range") = false :=
  ⟨rfl, rfl⟩

/-- Claim C5, amended: execution always hands exactly the translated
parameter list to the driver (every executed statement binds precisely those
values), and a placeholder/parameter count mismatch always raises — the
invocation never silently proceeds with truncated or padded parameters — but
the raised error is an untagged `IndexError`/`TypeError` from the client-side
merge, not an ExecutionFailure of the `psycopg2.Error` domain. -/
theorem c5_amended (env : Env) (q wc stmt : String) (prms ps : List Scalar) :
    (Event.pgExecute stmt ps ∈ (search_products env q).1 →
       ∃ w p, parseTranslation env = Except.ok (w, p) ∧ ps = p) ∧
    (parseTranslation env = Except.ok (wc, prms) → env.connectErr = none →
       countPS ("SELECT * FROM products WHERE " ++ wc).data ≠ prms.length →
       ∃ e, (search_products env q).2 = Except.error e ∧
         isDbError e = false ∧ isRequestExc e = false ∧
         (e = PyExc.indexErr "tuple index out of range" ∨
          e = PyExc.typeErr "not all arguments converted during string formatting")) := by
  constructor
  · intro h
    cases hp : parseTranslation env with
    | error e =>
        rw [sp_eq_of_parse_error q hp] at h
        simp [postEvent] at h
    | ok wp =>
        rcases wp with ⟨w, p⟩
        rw [sp_eq_of_parse_ok q hp] at h
        simp [postEvent] at h
        exact ⟨w, p, rfl, (execStage_execute_mem h).2⟩
  · intro hp hc hmm
    rw [sp_eq_of_parse_ok q hp]
    rcases env with ⟨tp, ce, srj, desc, fe, rows⟩
    simp at hc
    subst hc
    simp only [execStage]
    split_ifs with h1 h2
    · exact ⟨_, rfl, rfl, rfl, Or.inl rfl⟩
    · exact ⟨_, rfl, rfl, rfl, Or.inr rfl⟩
    · exact absurd (Nat.le_antisymm (Nat.not_lt.mp h1) (Nat.not_lt.mp h2)) hmm

/-- Witness for the amended C5 at the concrete mismatch environment. -/
theorem c5_witness :
    parseTranslation envMismatch = Except.ok ("x = %s", []) ∧
    envMismatch.connectErr = none ∧
    countPS ("SELECT * FROM products WHERE " ++ "x = %s").data ≠ List.length ([] : List Scalar) ∧
    (∃ e, (search_products envMismatch "q").2 = Except.error e ∧
       isDbError e = false ∧ isRequestExc e = false ∧
       (e = PyExc.indexErr "tuple index out of range" ∨
        e = PyExc.typeErr "not all arguments converted during string formatting")) :=
  ⟨rfl, rfl, by decide,
   (c5_amended envMismatch "q" "x = %s" "s" [] []).2 rfl rfl (by decide)⟩

/-- Claim C6: for every invocation, either the complete result set is
returned or an error is raised.  A successful outcome is always the full
mapping of ALL fetched rows (never a truncated list), and both except
clauses of the code re-raise the failure they catch unchanged, so no caught
failure is ever swallowed into a normal return. -/
theorem c6_no_partial_no_swallow (env : Env) (q : String) (rs : List Rec)
    (h : (search_products env q).2 = Except.ok rs) :
    rs = env.rows.map (fun r => pyDict (env.description.zip r)) ∧
    ∀ e, exceptClauses e = Except.error e := by
  refine ⟨?_, exceptClauses_id⟩
  cases hp : parseTranslation env with
  | error e =>
      rw [sp_eq_of_parse_error q hp] at h
      simp at h
  | ok wp =>
      rcases wp with ⟨wc, prms⟩
      rw [sp_eq_of_parse_ok q hp] at h
      simp at h
      exact (execStage_ok_spec h).1

/-- Witness for C6 on the concrete successful environment `envOk`. -/
theorem c6_witness :
    (search_products envOk "q").2
        = Except.ok [[("a", Scalar.int 1), ("b", Scalar.int 2)]] ∧
    ([[("a", Scalar.int 1), ("b", Scalar.int 2)]] : List Rec)
        = envOk.rows.map (fun r => pyDict (envOk.description.zip r)) ∧
    ∀ e, exceptClauses e = Except.error e :=
  ⟨rfl, (c6_no_partial_no_swallow envOk "q" _ rfl).1,
   (c6_no_partial_no_swallow envOk "q" _ rfl).2⟩

/-- Claim C7: when translation succeeds, the statement executes, and the store
returns zero matching rows, the pipeline returns the empty list of records
(an `Except.ok`, hence no error is raised). -/
theorem c7_zero_rows_empty_ok (env : Env) (q wc : String) (prms : List Scalar)
    (hp : parseTranslation env = Except.ok (wc, prms))
    (hc : env.connectErr = none)
    (hn : countPS ("SELECT * FROM products WHERE " ++ wc).data = prms.length)
    (hs : env.storeReject = none)
    (hf : env.fetchErr = none)
    (hr : env.rows = []) :
    (search_products env q).2 = Except.ok ([] : List Rec) := by
  rw [sp_eq_of_parse_ok q hp]
  rcases env with ⟨tp, ce, srj, desc, fe, rows⟩
  simp at hc hs hf hr
  subst hc; subst hs; subst hf; subst hr
  simp only [execStage]
  rw [if_neg (by rw [hn]; exact Nat.lt_irrefl _),
      if_neg (by rw [hn]; exact Nat.lt_irrefl _)]
  simp

/-- A successful environment whose store returns zero rows. -/
def envEmpty : Env :=
  ⟨Except.ok ⟨200, some ⟨some "x = %s", some [Scalar.str "a"]⟩⟩,
   none, none, ["a", "b"], none, []⟩

/-- Witness for C7 at the concrete zero-row environment `envEmpty`. -/
theorem c7_witness :
    parseTranslation envEmpty = Except.ok ("x = %s", [Scalar.str "a"]) ∧
    envEmpty.connectErr = none ∧
    countPS ("SELECT * FROM products WHERE " ++ "x = %s").data
        = List.length [Scalar.str "a"] ∧
    envEmpty.storeReject = none ∧
    envEmpty.fetchErr = none ∧
    envEmpty.rows = [] ∧
    (search_products envEmpty "q").2 = Except.ok ([] : List Rec) :=
  ⟨rfl, rfl, by decide, rfl, rfl, rfl,
   c7_zero_rows_empty_ok envEmpty "q" "x = %s" [Scalar.str "a"]
     rfl rfl (by decide) rfl rfl rfl⟩

/-- Claim C8: for every successful invocation, the result-set column metadata
is read exactly once (exactly one `readDesc` event in the trace), each record
is the dict obtained by zipping the column names with that row of values, and
the records appear in the same order as the fetched rows (`List.map`
preserves order; no sorting is applied). -/
theorem c8_metadata_once_zip_order (env : Env) (q : String) (rs : List Rec)
    (h : (search_products env q).2 = Except.ok rs) :
    ((search_products env q).1.filter isReadDesc).length = 1 ∧
    rs = env.rows.map (fun r => pyDict (env.description.zip r)) := by
  cases hp : parseTranslation env with
  | error e =>
      rw [sp_eq_of_parse_error q hp] at h
      simp at h
  | ok wp =>
      rcases wp with ⟨wc, prms⟩
      rw [sp_eq_of_parse_ok q hp] at h ⊢
      simp at h
      rcases execStage_ok_spec h with ⟨h1, h2⟩
      refine ⟨?_, h1⟩
      simp [h2, postEvent, isReadDesc]

/-- Witness for C8 on the concrete successful environment `envOk`. -/
theorem c8_witness :
    (search_products envOk "q").2
        = Except.ok [[("a", Scalar.int 1), ("b", Scalar.int 2)]] ∧
    (((search_products envOk "q").1.filter isReadDesc).length = 1 ∧
     [[("a", Scalar.int 1), ("b", Scalar.int 2)]]
        = envOk.rows.map (fun r => pyDict (envOk.description.zip r))) :=
  ⟨rfl, c8_metadata_once_zip_order envOk "q" _ rfl⟩

theorem hasKey_iff (k : String) (d : List (String × Scalar)) :
    hasKey k d = true ↔ k ∈ dKeys d := by
  induction d with
  | nil => simp [hasKey, dKeys]
  | cons p rest ih =>
      rcases p with ⟨k2, v⟩
      simp only [hasKey, Bool.or_eq_true, beq_iff_eq, ih, dKeys,
        List.map_cons, List.mem_cons]
      rw [@eq_comm String k2 k]

theorem replaceVal_eq (k : String) (v : Scalar) (k2 : String) (v2 : Scalar)
    (h : k2 = k) : replaceVal k v (k2, v2) = (k, v) := by
  simp [replaceVal, h]

theorem replaceVal_ne (k : String) (v : Scalar) (k2 : String) (v2 : Scalar)
    (h : ¬ k2 = k) : replaceVal k v (k2, v2) = (k2, v2) := by
  simp [replaceVal, h]

theorem dKeys_map_replace (k : String) (v : Scalar) (d : List (String × Scalar)) :
    dKeys (d.map (replaceVal k v)) = dKeys d := by
  induction d with
  | nil => rfl
  | cons p rest ih =>
      rcases p with ⟨k2, v2⟩
      by_cases hk : k2 = k
      · rw [List.map_cons, replaceVal_eq k v k2 v2 hk]
        simp only [dKeys, List.map_cons] at ih ⊢
        rw [ih, hk]
      · rw [List.map_cons, replaceVal_ne k v k2 v2 hk]
        simp only [dKeys, List.map_cons] at ih ⊢
        rw [ih]

theorem dKeys_dictInsert (k : String) (v : Scalar) (d : List (String × Scalar)) :
    dKeys (dictInsert d k v)
      = if hasKey k d then dKeys d else dKeys d ++ [k] := by
  unfold dictInsert
  split_ifs with h
  · exact dKeys_map_replace k v d
  · simp [dKeys]

theorem mem_dKeys_dictInsert (a k : String) (v : Scalar) (d : List (String × Scalar)) :
    a ∈ dKeys (dictInsert d k v) ↔ a ∈ dKeys d ∨ a = k := by
  rw [dKeys_dictInsert]
  split_ifs with h
  · constructor
    · exact Or.inl
    · rintro (h2 | rfl)
      · exact h2
      · exact (hasKey_iff a d).mp h
  · simp

theorem nodup_dKeys_dictInsert {d : List (String × Scalar)} (k : String) (v : Scalar)
    (h : (dKeys d).Nodup) : (dKeys (dictInsert d k v)).Nodup := by
  rw [dKeys_dictInsert]
  split_ifs with hk
  · exact h
  · have hnot : k ∉ dKeys d := by
      intro hmem
      rw [← hasKey_iff k d] at hmem
      simp [hmem] at hk
    simp [List.nodup_append, h, hnot]

theorem dLookup_map_replace_self (k : String) (v : Scalar)
    (d : List (String × Scalar)) (h : hasKey k d = true) :
    dLookup k (d.map (replaceVal k v)) = some v := by
  induction d with
  | nil => simp [hasKey] at h
  | cons p rest ih =>
      rcases p with ⟨k2, v2⟩
      by_cases hk : k2 = k
      · rw [List.map_cons, replaceVal_eq k v k2 v2 hk]
        simp [dLookup]
      · rw [List.map_cons, replaceVal_ne k v k2 v2 hk]
        simp [hasKey, hk] at h
        simp [dLookup, hk]
        exact ih h

theorem dLookup_append_self (k : String) (v : Scalar)
    (d : List (String × Scalar)) (h : hasKey k d = false) :
    dLookup k (d ++ [(k, v)]) = some v := by
  induction d with
  | nil => simp [dLookup]
  | cons p rest ih =>
      rcases p with ⟨k2, v2⟩
      simp [hasKey] at h
      simp [dLookup, h.1]
      exact ih h.2

theorem dLookup_dictInsert_self (k : String) (v : Scalar) (d : List (String × Scalar)) :
    dLookup k (dictInsert d k v) = some v := by
  unfold dictInsert
  split_ifs with h
  · exact dLookup_map_replace_self k v d h
  · exact dLookup_append_self k v d (by simpa using h)

theorem dLookup_map_replace_ne (k2 k : String) (v : Scalar)
    (d : List (String × Scalar)) (hne : k2 ≠ k) :
    dLookup k2 (d.map (replaceVal k v)) = dLookup k2 d := by
  induction d with
  | nil => rfl
  | cons p rest ih =>
      rcases p with ⟨k3, v3⟩
      by_cases hk : k3 = k
      · rw [List.map_cons, replaceVal_eq k v k3 v3 hk]
        have h2 : ¬ k = k2 := fun h => hne h.symm
        have h3 : ¬ k3 = k2 := by rw [hk]; exact h2
        simp [dLookup, h2, h3, ih]
      · rw [List.map_cons, replaceVal_ne k v k3 v3 hk]
        by_cases hk2 : k3 = k2 <;> simp [dLookup, hk2, ih]

theorem dLookup_append_ne (k2 k : String) (v : Scalar)
    (d : List (String × Scalar)) (hne : k2 ≠ k) :
    dLookup k2 (d ++ [(k, v)]) = dLookup k2 d := by
  induction d with
  | nil =>
      have h2 : k ≠ k2 := Ne.symm hne
      simp [dLookup, h2]
  | cons p rest ih =>
      rcases p with ⟨k3, v3⟩
      by_cases hk2 : k3 = k2 <;> simp [dLookup, hk2, ih]

theorem dLookup_dictInsert_ne (k2 k : String) (v : Scalar)
    (d : List (String × Scalar)) (hne : k2 ≠ k) :
    dLookup k2 (dictInsert d k v) = dLookup k2 d := by
  unfold dictInsert
  split_ifs with h
  · exact dLookup_map_replace_ne k2 k v d hne
  · exact dLookup_append_ne k2 k v d hne

theorem nodup_dKeys_pyDictAux (l : List (String × Scalar)) :
    ∀ d, (dKeys d).Nodup → (dKeys (pyDictAux d l)).Nodup := by
  induction l with
  | nil => intro d h; exact h
  | cons p rest ih =>
      intro d h
      exact ih _ (nodup_dKeys_dictInsert p.1 p.2 h)

theorem mem_dKeys_pyDictAux (a : String) (l : List (String × Scalar)) :
    ∀ d, a ∈ dKeys (pyDictAux d l) ↔ a ∈ dKeys d ∨ a ∈ dKeys l := by
  induction l with
  | nil => intro d; simp [pyDictAux, dKeys]
  | cons p rest ih =>
      intro d
      rcases p with ⟨k, v⟩
      rw [pyDictAux, ih, mem_dKeys_dictInsert]
      simp [dKeys]
      tauto

theorem dLookup_pyDictAux (k : String) (l : List (String × Scalar)) :
    ∀ d, dLookup k (pyDictAux d l)
      = match lastVal k l with
        | some w => some w
        | none => dLookup k d := by
  induction l with
  | nil => intro d; simp [pyDictAux, lastVal]
  | cons p rest ih =>
      intro d
      rcases p with ⟨k2, v⟩
      rw [pyDictAux, ih]
      cases hl : lastVal k rest with
      | some w => simp [lastVal, hl]
      | none =>
          by_cases hk : k2 = k
          · subst hk
            simp [lastVal, hl, dLookup_dictInsert_self]
          · simp [lastVal, hl, hk, dLookup_dictInsert_ne k k2 v d (Ne.symm hk)]

theorem pyDict_length (l : List (String × Scalar)) :
    (pyDict l).length = (dKeys l).dedup.length := by
  have hnd : (dKeys (pyDict l)).Nodup :=
    nodup_dKeys_pyDictAux l [] (by simp [dKeys])
  have hmem : ∀ a, a ∈ dKeys (pyDict l) ↔ a ∈ (dKeys l).dedup := by
    intro a
    rw [List.mem_dedup, pyDict, mem_dKeys_pyDictAux]
    simp [dKeys]
  have hperm : List.Perm (dKeys (pyDict l)) ((dKeys l).dedup) :=
    (List.perm_ext_iff_of_nodup hnd (List.nodup_dedup _)).mpr hmem
  calc (pyDict l).length = (dKeys (pyDict l)).length := by simp [dKeys]
    _ = (dKeys l).dedup.length := hperm.length_eq

theorem dedup_length_lt (l : List String) (h : ¬ l.Nodup) :
    l.dedup.length < l.length := by
  rcases Nat.lt_or_ge l.dedup.length l.length with hlt | hge
  · exact hlt
  · exfalso
    have hsub := List.dedup_sublist l
    have heq : l.dedup = l := hsub.eq_of_length (Nat.le_antisymm hsub.length_le hge)
    exact h (heq ▸ List.nodup_dedup l)

/-- Claim C10: when the result-set metadata repeats a column name, the record
`dict(zip(columns, row))` silently keeps, for each name, only the value of
the LAST column zipped with that name; the record therefore has strictly
fewer entries than the row has columns, and no error is raised (the record
is still produced). -/
theorem c10_duplicate_columns (cols : List String) (row : List Scalar) (k : String)
    (hlen : row.length = cols.length) (hdup : ¬ cols.Nodup) :
    (pyDict (cols.zip row)).length < cols.length ∧
    dLookup k (pyDict (cols.zip row)) = lastVal k (cols.zip row) := by
  have hk : dKeys (cols.zip row) = cols := by
    unfold dKeys
    exact List.map_fst_zip cols row (le_of_eq hlen.symm)
  constructor
  · rw [pyDict_length, hk]
    exact dedup_length_lt cols hdup
  · rw [pyDict, dLookup_pyDictAux]
    cases lastVal k (cols.zip row) <;> simp [dLookup]

/-- Witness for C10: columns `["a", "a"]` with row `[1, 2]` give a one-entry
record holding the last value `2`, with no error. -/
theorem c10_witness :
    List.length [Scalar.int 1, Scalar.int 2] = List.length ["a", "a"] ∧
    ¬ (["a", "a"] : List String).Nodup ∧
    ((pyDict ((["a", "a"]).zip [Scalar.int 1, Scalar.int 2])).length
        < List.length ["a", "a"] ∧
     dLookup "a" (pyDict ((["a", "a"]).zip [Scalar.int 1, Scalar.int 2]))
        = lastVal "a" ((["a", "a"]).zip [Scalar.int 1, Scalar.int 2])) ∧
    dLookup "a" (pyDict ((["a", "a"]).zip [Scalar.int 1, Scalar.int 2]))
        = some (Scalar.int 2) :=
  ⟨rfl, by decide,
   c10_duplicate_columns ["a", "a"] [Scalar.int 1, Scalar.int 2] "a" rfl (by decide),
   rfl⟩
